import Mathlib

/-!
Verification of the Tuya BLE credential core: a shallow embedding of
`custom_components/tuya_ble/tuya_cloud_api.py` (the signing HTTP client) and
`custom_components/tuya_ble/cloud.py` (the credential cache / resolver),
with theorems about the request-signing algorithm, header construction,
failure envelopes, MAC normalization, cache-key determinism and the
credential-resolution paths.

JSON values are modelled by the inductive `JVal`; a Python value that may be
`None` is `PyVal := Option JVal`; a Python `dict` is an insertion-ordered
association list.  The HTTP layer is an oracle: a list of outcomes, one per
issued request, each either a parsed JSON document or an exception text
(covering transport errors and bodies that fail `json.loads`).
-/

/-- JSON documents as returned by `json.loads`. -/
inductive JVal where
  | jnull : JVal
  | jbool : Bool → JVal
  | jnum : Int → JVal
  | jstr : String → JVal
  | jarr : List JVal → JVal
  | jobj : List (String × JVal) → JVal

/-- A Python value that may be `None` (`none` is Python `None`). -/
abbrev PyVal := Option JVal

/-- A Python `dict` with string keys, as an insertion-ordered association list. -/
abbrev PyDict := List (String × PyVal)

/-- First-match association-list lookup (Python dicts have unique keys). -/
def alookup {α : Type} : List (String × α) → String → Option α
  | [], _ => none
  | (k', v) :: rest, k => if k' = k then some v else alookup rest k

/-- Python `d[k] = v`: replace the value in place, else append (dict order). -/
def aset {α : Type} : List (String × α) → String → α → List (String × α)
  | [], k, v => [(k, v)]
  | (k', v') :: rest, k, v =>
    if k' = k then (k, v) :: rest else (k', v') :: aset rest k v

/-- Python `dst.update(src)`. -/
def pyUpdate (dst src : PyDict) : PyDict :=
  src.foldl (fun d kv => aset d kv.1 kv.2) dst

/-- Python `data.get(key)`: the stored value, or `None` when the key is absent. -/
def pyGetNone (d : PyDict) (k : String) : PyVal :=
  (alookup d k).getD none

/-- Python `data.get(key, default)`. -/
def pyGetD (d : PyDict) (k : String) (dflt : PyVal) : PyVal :=
  (alookup d k).getD dflt

/-- Extract a Python `str`; `none` models the `TypeError` any other value
would raise when used where a string is required. -/
def asPyStr : PyVal → Option String
  | some (.jstr s) => some s
  | _ => none

/-- Python truthiness of a JSON value. -/
def jTruthy : JVal → Bool
  | .jnull => false
  | .jbool b => b
  | .jnum n => decide (n ≠ 0)
  | .jstr s => decide (s ≠ "")
  | .jarr xs => !xs.isEmpty
  | .jobj fs => !fs.isEmpty

/-- Python truthiness of a possibly-`None` value. -/
def pyTruthy : PyVal → Bool
  | none => false
  | some v => jTruthy v

/-- Python `obj.get(k)` on a JSON document (callers only apply it to objects). -/
def jget : JVal → String → Option JVal
  | .jobj fs, k => alookup fs k
  | _, _ => none

/-! ### `json.dumps` (the fragment used for cache keys)

String escaping is limited to quote and backslash; control-character and
non-ASCII escapes of CPython's `json.dumps` are not modelled (cache keys are
built from configuration strings).  Separators are CPython's defaults
`", "` and `": "`. -/

/-- Escape one character for a JSON string literal. -/
def escChar (c : Char) : List Char :=
  if c = '"' then ['\\', '"'] else if c = '\\' then ['\\', '\\'] else [c]

/-- Serialize a string as a JSON string literal. -/
def dumpString (s : String) : String :=
  "\"" ++ String.mk (s.data.foldr (fun c acc => escChar c ++ acc) []) ++ "\""

mutual

/-- Serialize a JSON value, CPython `json.dumps` style. -/
def dumpJVal : JVal → String
  | .jnull => "null"
  | .jbool b => if b then "true" else "false"
  | .jnum n => toString n
  | .jstr s => dumpString s
  | .jarr xs => "[" ++ dumpArr xs ++ "]"
  | .jobj fs => "\x7b" ++ dumpObj fs ++ "\x7d"

/-- Serialize the elements of a JSON array. -/
def dumpArr : List JVal → String
  | [] => ""
  | [x] => dumpJVal x
  | x :: y :: xs => dumpJVal x ++ ", " ++ dumpArr (y :: xs)

/-- Serialize the fields of a JSON object. -/
def dumpObj : List (String × JVal) → String
  | [] => ""
  | [(k, v)] => dumpString k ++ ": " ++ dumpJVal v
  | (k, v) :: f :: fs => dumpString k ++ ": " ++ dumpJVal v ++ ", " ++ dumpObj (f :: fs)

end

/-- Serialize a possibly-`None` Python value. -/
def dumpPyVal : PyVal → String
  | none => "null"
  | some v => dumpJVal v

/-! ### Configuration keys (`const.py`) and the cache key (`cloud.py`) -/

/-- The list `CONF_TUYA_LOGIN_KEYS` from `cloud.py`. -/
def CONF_TUYA_LOGIN_KEYS : List String :=
  ["access_id", "access_secret", "tuya_device_id", "region"]

/-- The list `CONF_TUYA_DEVICE_KEYS` from `cloud.py`. -/
def CONF_TUYA_DEVICE_KEYS : List String :=
  ["uuid", "local_key", "device_id", "category", "product_id",
   "device_name", "product_name", "product_model"]

/-- Source `_get_cache_key`: `json.dumps({key: data.get(key) for key in CONF_TUYA_LOGIN_KEYS})`. -/
def getCacheKey (data : PyDict) : String :=
  "\x7b" ++
    String.intercalate ", "
      (CONF_TUYA_LOGIN_KEYS.map fun k => dumpString k ++ ": " ++ dumpPyVal (pyGetNone data k)) ++
  "\x7d"

/-- Source `_has_login`: every login key maps to a value that is not `None`. -/
def hasLogin (data : PyDict) : Bool :=
  CONF_TUYA_LOGIN_KEYS.all fun k => (pyGetNone data k).isSome

/-- Source `_has_credentials`: every device key maps to a value that is not `None`. -/
def hasCredentials (data : PyDict) : Bool :=
  CONF_TUYA_DEVICE_KEYS.all fun k => (pyGetNone data k).isSome

/-! ### MAC normalization (`_fill_cache_item`) -/

/-- Python slice `s[i:j]` for `0 ≤ i ≤ j`. -/
def pySlice (s : String) (i j : Nat) : String :=
  String.mk ((s.data.drop i).take (j - i))

/-- Python `str.upper()` (ASCII case mapping, enough for hex MAC strings). -/
def pyUpper (s : String) : String :=
  String.mk (s.data.map Char.toUpper)

/-- Python `str.lower()` (ASCII case mapping, enough for region codes). -/
def pyLower (s : String) : String :=
  String.mk (s.data.map Char.toLower)

/-- The address transformation of `_fill_cache_item`:
`":".join(mac[i:i+2] for i in range(0, 12, 2)).upper()`. -/
def normalizeMac (s : String) : String :=
  pyUpper (String.intercalate ":" ([0, 2, 4, 6, 8, 10].map fun i => pySlice s i (i + 2)))

/-! ### The signing HTTP client (`tuya_cloud_api.py`), pure part

The cryptographic primitives are parameters: `hmacHex key msg` stands for
`hmac.new(key, msg, sha256).hexdigest()` and `shaHex body` for
`hashlib.sha256(body).hexdigest()` (both lowercase hex, as `hexdigest`
produces).  The signing pipeline itself — payload assembly, URL/path
canonicalization, casing, header layout — is embedded from the source. -/

/-- Python `s.startswith(pre)`. -/
def strStartsWith (pre s : String) : Bool :=
  pre.data.isPrefixOf s.data

/-- The `endpoints` table of `_get_url_host`. -/
def tuyaEndpoints : List (String × String) :=
  [("cn", "openapi.tuyacn.com"),
   ("us", "openapi.tuyaus.com"),
   ("az", "openapi.tuyaus.com"),
   ("us-e", "openapi-ueaz.tuyaus.com"),
   ("ue", "openapi-ueaz.tuyaus.com"),
   ("eu", "openapi.tuyaeu.com"),
   ("eu-w", "openapi-weaz.tuyaeu.com"),
   ("we", "openapi-weaz.tuyaeu.com"),
   ("in", "openapi.tuyain.com"),
   ("sg", "openapi-sg.iotbing.com")]

/-- Source `_get_url_host`: `endpoints.get(region.lower(), "openapi.tuyaeu.com")`. -/
def getUrlHost (region : String) : String :=
  (alookup tuyaEndpoints (pyLower region)).getD "openapi.tuyaeu.com"

/-- URL construction at the top of `_make_request`. -/
def buildUrl (host uri : String) : String :=
  if strStartsWith "/" uri then "https://" ++ host ++ uri
  else if strStartsWith "http" uri then uri
  else "https://" ++ host ++ "/v1.0/" ++ uri

/-- The suffix after the first occurrence of `sep`, if `sep` occurs. -/
def afterFirst (sep : List Char) : List Char → Option (List Char)
  | [] => none
  | c :: rest =>
    if sep.isPrefixOf (c :: rest) then some (List.drop sep.length (c :: rest))
    else afterFirst sep rest

/-- Python `s.split(sep, 1)[-1]`: everything after the first occurrence of
`sep`, or the whole string when `sep` does not occur. -/
def pySplit1Last (sep s : String) : String :=
  match afterFirst sep.data s.data with
  | some r => String.mk r
  | none => s

/-- Path canonicalization of `_make_request`:
`'/' + url.split('//', 1)[-1].split('/', 1)[-1]`. -/
def urlPath (url : String) : String :=
  "/" ++ pySplit1Last "/" (pySplit1Last "//" url)

/-- Source `_generate_signature`: uppercase hex HMAC-SHA256 keyed by the API secret. -/
def generateSignature (hmacHex : String → String → String) (secret payload : String) : String :=
  pyUpper (hmacHex secret payload)

/-- The `sign` header value computed by `_make_request` for a request with the
given key, secret, stored token, timestamp `t`, method, uri and serialized
body (`none` when `data` is falsy, so the body is the empty string). -/
def makeRequestSign (hmacHex : String → String → String) (shaHex : String → String)
    (key secret : String) (token : Option String) (region t method uri : String)
    (data : Option String) : String :=
  let url := buildUrl (getUrlHost region) uri
  let body := match data with | none => "" | some d => d
  let payloadBase := match token with
    | none => key ++ t
    | some tok => key ++ tok ++ t
  let payload := payloadBase ++ method ++ "\n" ++ shaHex body ++ "\n\n" ++ urlPath url
  generateSignature hmacHex secret payload

/-- The header list assembled by `_make_request`, in insertion order:
`client_id`, `sign_method`, `t`, then `Content-Type` for a non-empty body,
then `secret` (no stored token) or `access_token` (token stored), then `sign`. -/
def makeRequestHeaders (hmacHex : String → String → String) (shaHex : String → String)
    (key secret : String) (token : Option String) (region t method uri : String)
    (data : Option String) : List (String × String) :=
  let base := [("client_id", key), ("sign_method", "HMAC-SHA256"), ("t", t)]
  let base := base ++ (match data with
    | none => []
    | some _ => [("Content-Type", "application/json")])
  let base := base ++ (match token with
    | none => [("secret", secret)]
    | some tok => [("access_token", tok)])
  base ++ [("sign", makeRequestSign hmacHex shaHex key secret token region t method uri data)]

/-- The request path of the issued URL, as the spec words it: the path
beginning with a leading slash, with scheme and host stripped — `uri` itself
when `uri` is already a path, and `/v1.0/ + uri` for a bare endpoint name. -/
def specCanonicalPath (uri : String) : String :=
  if strStartsWith "/" uri then uri else "/v1.0/" ++ uri

/-- Holds when `s` contains no `'/'` character. -/
def noSlash (s : String) : Bool :=
  s.data.all fun c => decide (c ≠ '/')

/-! ### The signing HTTP client, stateful part

`_make_request` is driven by an oracle: one outcome per issued HTTP request,
`Except.ok` a parsed JSON document or `Except.error` an exception text
(covering both transport failures and bodies rejected by `json.loads`; the
code wraps either in `TuyaCloudAPIError("Request failed: ...")`).  The four
public methods catch every exception, so they are total functions into plain
values — nothing propagates past them. -/

/-- Outcomes of successive HTTP requests. -/
abbrev Oracle := List (Except String JVal)

/-- The environment of a client run: the remaining request outcomes. -/
structure World where
  responses : Oracle

/-- One `_make_request` round-trip: consume the next outcome, wrapping a
failure the way `TuyaCloudAPIError(f"Request failed: {e}")` renders it. -/
def makeRequestW (w : World) : Except String JVal × World :=
  match w.responses with
  | [] => (.error "Request failed: no response", ⟨[]⟩)
  | .ok v :: rest => (.ok v, ⟨rest⟩)
  | .error e :: rest => (.error ("Request failed: " ++ e), ⟨rest⟩)

/-- The mutable fields of a `TuyaCloudAPI` instance.  Key, secret and device
id come straight from configuration, so they may be `None` or non-strings;
`token` is whatever JSON value the token response carried. -/
structure ApiState where
  apiKey : PyVal
  apiSecret : PyVal
  apiDeviceId : PyVal
  region : String
  token : Option JVal
  error : Option JVal

/-- Truthiness of `self.token` (`None` and falsy values both fail `if self.token`). -/
def tokenTruthy (t : Option JVal) : Bool :=
  match t with
  | none => false
  | some v => jTruthy v

/-- The structured error dictionary `{"success": False, "msg": ..., "code": ...}`. -/
def errEnv (msg code : JVal) : JVal :=
  .jobj [("success", .jbool false), ("msg", msg), ("code", code)]

/-- Source `get_token`.  A non-string key or secret makes the payload construction
inside `_make_request` raise before any request is sent; the broad `except`
then stores an error and returns `None`.  On a `success: false` response the
error `{success: False, msg, code}` is stored; on success the token is stored
and the error cleared.  Missing `result`/`access_token` keys raise and are
caught the same way. -/
def getToken (a : ApiState) (w : World) : Option JVal × ApiState × World :=
  match asPyStr a.apiKey, asPyStr a.apiSecret with
  | some _, some _ =>
    let (r, w') := makeRequestW w
    match r with
    | .error e => (none, { a with error := some (errEnv (.jstr e) .jnull) }, w')
    | .ok resp =>
      match resp with
      | .jobj fs =>
        if pyTruthy (alookup fs "success") then
          match alookup fs "result" with
          | some (.jobj rs) =>
            match alookup rs "access_token" with
            | some tok => (some tok, { a with token := some tok, error := none }, w')
            | none => (none, { a with error := some (errEnv (.jstr "KeyError") .jnull) }, w')
          | some _ => (none, { a with error := some (errEnv (.jstr "TypeError") .jnull) }, w')
          | none => (none, { a with error := some (errEnv (.jstr "KeyError") .jnull) }, w')
        else
          let msg := (alookup fs "msg").getD (.jstr "Unknown error")
          let code := (alookup fs "code").getD .jnull
          (none, { a with error := some (errEnv msg code) }, w')
      | _ => (none, { a with error := some (errEnv (.jstr "AttributeError") .jnull) }, w')
  | _, _ => (none, { a with error := some (errEnv (.jstr "TypeError") .jnull) }, w)

/-- The request/parse part of `get_user_id`; every failure is caught and
becomes `None`. -/
def getUserIdCore (a : ApiState) (w : World) : Option JVal × ApiState × World :=
  let (r, w') := makeRequestW w
  match r with
  | .error _ => (none, a, w')
  | .ok resp =>
    match resp with
    | .jobj fs =>
      if pyTruthy (alookup fs "success") then
        match alookup fs "result" with
        | some (.jobj rs) =>
          match alookup rs "uid" with
          | some v => (some v, a, w')
          | none => (none, a, w')
        | _ => (none, a, w')
      else (none, a, w')
    | _ => (none, a, w')

/-- Source `get_user_id`: fetch a token first when none is stored. -/
def getUserId (a : ApiState) (w : World) : Option JVal × ApiState × World :=
  if tokenTruthy a.token then getUserIdCore a w
  else
    let (_, a1, w1) := getToken a w
    if tokenTruthy a1.token then getUserIdCore a1 w1
    else (none, a1, w1)

/-- The device-list request of `get_devices`: the parsed response is returned
unchanged whether or not it reports success; exceptions become the
`{"success": False, "msg": str(e)}` envelope. -/
def getDevicesCore (a : ApiState) (w : World) : JVal × ApiState × World :=
  let (r, w') := makeRequestW w
  match r with
  | .error e => (.jobj [("success", .jbool false), ("msg", .jstr e)], a, w')
  | .ok resp =>
    match resp with
    | .jobj _ => (resp, a, w')
    | _ => (.jobj [("success", .jbool false), ("msg", .jstr "AttributeError")], a, w')

/-- Source `get_devices` after the token is ensured: an explicit user id, or the
configured device id resolved through `get_user_id`, or the
associated-users endpoint. -/
def getDevicesAuthed (a : ApiState) (userId : PyVal) (w : World) : JVal × ApiState × World :=
  if pyTruthy userId then getDevicesCore a w
  else if pyTruthy a.apiDeviceId then
    let (uid, a1, w1) := getUserId a w
    if pyTruthy uid then getDevicesCore a1 w1
    else (.jobj [("success", .jbool false), ("msg", .jstr "Failed to get user ID")], a1, w1)
  else getDevicesCore a w

/-- Source `get_devices`. -/
def getDevices (a : ApiState) (userId : PyVal) (w : World) : JVal × ApiState × World :=
  if tokenTruthy a.token then getDevicesAuthed a userId w
  else
    let (_, a1, w1) := getToken a w
    if tokenTruthy a1.token then getDevicesAuthed a1 userId w1
    else (.jobj [("success", .jbool false), ("msg", .jstr "Failed to get token")], a1, w1)

/-- The request part of `cloud_request`: the parsed document is returned raw;
an exception becomes the failure envelope. -/
def cloudRequestCore (a : ApiState) (w : World) : JVal × ApiState × World :=
  let (r, w') := makeRequestW w
  match r with
  | .ok resp => (resp, a, w')
  | .error e => (.jobj [("success", .jbool false), ("msg", .jstr e)], a, w')

/-- Source `cloud_request`. -/
def cloudRequest (a : ApiState) (w : World) : JVal × ApiState × World :=
  if tokenTruthy a.token then cloudRequestCore a w
  else
    let (_, a1, w1) := getToken a w
    if tokenTruthy a1.token then cloudRequestCore a1 w1
    else (.jobj [("success", .jbool false), ("msg", .jstr "Failed to get token")], a1, w1)

/-! ### The credential cache and resolver (`cloud.py`) -/

/-- Source `TuyaCloudCacheItem`: client, the login data that created it, and the
address → credential-record map. -/
structure CacheItem where
  api : ApiState
  login : PyDict
  credentials : List (String × PyDict)

/-- The process-wide `_cache`, insertion-ordered. -/
abbrev Cache := List (String × CacheItem)

/-- Lookup `_cache.get(key)`. -/
def cacheGet (c : Cache) (k : String) : Option CacheItem :=
  alookup c k

/-- Assignment `_cache[key] = item` (or in-place mutation of the stored object). -/
def cacheSet (c : Cache) (k : String) (v : CacheItem) : Cache :=
  aset c k v

/-- The scan of `get_device_credentials`: the first cache key whose
credential map has an entry for the address. -/
def scanFor (address : String) : Cache → Option String
  | [] => none
  | (k, it) :: rest =>
    if (alookup it.credentials address).isSome then some k else scanFor address rest

/-- Cache-key selection in `get_device_credentials`: the caller's own key
when `_has_login` holds, otherwise the scan result. -/
def selectCacheKey (data : PyDict) (address : String) (cache : Cache) : Option String :=
  if hasLogin data then some (getCacheKey data) else scanFor address cache

/-- Source `_is_login_success`: `bool(response.get("success", False))`. -/
def isLoginSuccess (r : JVal) : Bool :=
  match r with
  | .jobj fs => pyTruthy (alookup fs "success")
  | _ => false

/-- The `TuyaCloudAPI` constructed by `_login` (defaults `""`, fresh token
and error). -/
def apiOf (data : PyDict) (region : String) : ApiState :=
  { apiKey := pyGetD data "access_id" (some (.jstr ""))
    apiSecret := pyGetD data "access_secret" (some (.jstr ""))
    apiDeviceId := pyGetD data "tuya_device_id" (some (.jstr ""))
    region := region
    token := none
    error := none }

/-- Source `_login(data, add_to_cache)`.  Empty data returns `{}`.  A non-string
region raises in the constructor (`region.lower()`), caught by the broad
`except`.  On a truthy token the success log line indexes
`data["access_id"][:8]`, raising when the key is absent or not a string —
also caught.  Only the fully successful path touches the cache, keyed by
`_get_cache_key(data)` with no `_has_login` guard.  On failure the stored
client error supplies `msg`/`code` (the `str(api.error)` fallback for an
error without a `msg` field is rendered with `dumpJVal`; stored errors always
carry `msg`). -/
def loginM (data : PyDict) (addToCache : Bool) (cache : Cache) (w : World) :
    JVal × Cache × World × Option ApiState :=
  if data.isEmpty then (.jobj [], cache, w, none)
  else
    match asPyStr (pyGetD data "region" (some (.jstr "eu"))) with
    | none => (errEnv (.jstr "TypeError") .jnull, cache, w, none)
    | some reg =>
      let (tok, a1, w1) := getToken (apiOf data reg) w
      if pyTruthy tok then
        match tok, alookup data "access_id" with
        | some v, some (some (.jstr _)) =>
          let resp := JVal.jobj [("success", .jbool true),
            ("result", .jobj [("access_token", v)])]
          if addToCache then
            let key := getCacheKey data
            match cacheGet cache key with
            | some it => (resp, cacheSet cache key { it with api := a1, login := data }, w1, some a1)
            | none => (resp, cacheSet cache key ⟨a1, data, []⟩, w1, some a1)
          else (resp, cache, w1, some a1)
        | _, _ => (errEnv (.jstr "KeyError") .jnull, cache, w1, some a1)
      else
        let pair : JVal × JVal :=
          match a1.error with
          | some e =>
            if jTruthy e then
              match e with
              | .jobj fs => ((alookup fs "msg").getD (.jstr (dumpJVal e)),
                             (alookup fs "code").getD .jnull)
              | _ => (.jstr (dumpJVal e), .jnull)
            else (.jstr "Authentication failed", .jnull)
          | none => (.jstr "Authentication failed", .jnull)
        (errEnv pair.1 pair.2, cache, w1, some a1)

/-- The credential record `_fill_cache_item` stores for one device: every
key present, values straight from `device.get(...)` (so `None` when the
device listing lacks a field). -/
def mkFillRecord (mac : String) (d : JVal) : PyDict :=
  [("address", some (.jstr mac)),
   ("uuid", jget d "uuid"),
   ("local_key", jget d "local_key"),
   ("device_id", jget d "id"),
   ("category", jget d "category"),
   ("product_id", jget d "product_id"),
   ("device_name", jget d "name"),
   ("product_model", jget d "model"),
   ("product_name", jget d "product_name")]

/-- The per-device loop of `_fill_cache_item`.  One `cloud_request` per
device with a truthy id; a factory-info response that is no object, or a
`mac` value that is not a string, raises inside the single `try` and aborts
the rest of the loop keeping what was stored so far.  Skipped shapes
(missing/empty `result`, entry without `mac`) continue with the next device;
for absurd non-object/non-list shapes CPython would abort via the same
`except` with the identical stored map, modelled here as a skip. -/
def fillDevices : List JVal → ApiState → List (String × PyDict) → World →
    List (String × PyDict) × ApiState × World
  | [], a, creds, w => (creds, a, w)
  | d :: rest, a, creds, w =>
    match d with
    | .jobj _ =>
      if pyTruthy (jget d "id") then
        let (fi, a1, w1) := cloudRequest a w
        match fi with
        | .jobj fs =>
          if jTruthy fi && pyTruthy (alookup fs "success") then
            match alookup fs "result" with
            | some (.jarr (x :: _)) =>
              match x with
              | .jobj xf =>
                if jTruthy x && (alookup xf "mac").isSome then
                  match alookup xf "mac" with
                  | some (.jstr rawMac) =>
                    let mac := normalizeMac rawMac
                    fillDevices rest a1 (aset creds mac (mkFillRecord mac d)) w1
                  | _ => (creds, a1, w1)
                else fillDevices rest a1 creds w1
              | _ => fillDevices rest a1 creds w1
            | _ => fillDevices rest a1 creds w1
          else fillDevices rest a1 creds w1
        | _ => (creds, a1, w1)
      else fillDevices rest a creds w
    | _ => (creds, a, w)

/-- Source `_fill_cache_item`: list the account's devices, then walk them. -/
def fillItem (it : CacheItem) (w : World) : CacheItem × World :=
  let (devResp, a1, w1) := getDevices it.api none w
  match devResp with
  | .jobj fs =>
    if pyTruthy (alookup fs "success") then
      match (alookup fs "result").getD (.jarr []) with
      | .jarr ds =>
        let (creds, a2, w2) := fillDevices ds a1 it.credentials w1
        ({ it with api := a2, credentials := creds }, w2)
      | _ => ({ it with api := a1 }, w1)
    else ({ it with api := a1 }, w1)
  | _ => ({ it with api := a1 }, w1)

/-- Modelled from the spec: the `TuyaBLEDeviceCredentials` record lives in
`tuya_ble.py`, which is not part of the sources here; per the spec it is the
eight-field device credential {pairing uuid, local key, vendor device id,
category, product id, device name, product model, product name}, constructed
positionally in that order by `get_device_credentials`. -/
structure TuyaBLEDeviceCredentials where
  uuid : PyVal
  localKey : PyVal
  deviceId : PyVal
  category : PyVal
  productId : PyVal
  deviceName : PyVal
  productModel : PyVal
  productName : PyVal

/-- One constructor argument: `credentials.get(key, "")`. -/
def credField (c : PyDict) (k : String) : PyVal :=
  pyGetD c k (some (.jstr ""))

/-- The record constructed at the end of `get_device_credentials`. -/
def mkDeviceCredentials (c : PyDict) : TuyaBLEDeviceCredentials :=
  ⟨credField c "uuid", credField c "local_key", credField c "device_id",
   credField c "category", credField c "product_id", credField c "device_name",
   credField c "product_model", credField c "product_name"⟩

/-- The shared tail of `get_device_credentials`: build the result when the
located credentials dictionary is truthy, and on `save_data` merge the
entry's login and the credentials back into the caller's data. -/
def finishCreds (data : PyDict) (item : Option CacheItem) (credentials : Option PyDict)
    (cache : Cache) (w : World) (saveData : Bool) :
    Option TuyaBLEDeviceCredentials × PyDict × Cache × World :=
  match credentials with
  | some c =>
    if !c.isEmpty then
      let data' :=
        if saveData then
          pyUpdate (match item with | some it => pyUpdate data it.login | none => data) c
        else data
      (some (mkDeviceCredentials c), data', cache, w)
    else (none, data, cache, w)
  | none => (none, data, cache, w)

/-- Look the address up in the located item (if any) and finish. -/
def finishLookup (data : PyDict) (item : Option CacheItem) (address : String)
    (cache : Cache) (w : World) (saveData : Bool) :
    Option TuyaBLEDeviceCredentials × PyDict × Cache × World :=
  finishCreds data item (item.bind fun it => alookup it.credentials address) cache w saveData

/-- Source `get_device_credentials(address, force_update, save_data)` over caller
data, the process cache and the HTTP oracle; returns (result, caller data,
cache, remaining oracle). -/
def getDeviceCredentials (data : PyDict) (address : String) (forceUpdate saveData : Bool)
    (cache : Cache) (w : World) :
    Option TuyaBLEDeviceCredentials × PyDict × Cache × World :=
  if !forceUpdate && hasCredentials data then
    finishCreds data none (some data) cache w saveData
  else
    let cacheKey := selectCacheKey data address cache
    let item0 := cacheKey.bind (cacheGet cache)
    if item0.isNone || forceUpdate then
      let (resp, c1, w1, _) := loginM data true cache w
      if isLoginSuccess resp then
        match cacheKey with
        | some k =>
          match cacheGet c1 k with
          | some it =>
            let (it2, w2) := fillItem it w1
            finishLookup data (some it2) address (cacheSet c1 k it2) w2 saveData
          | none => finishLookup data none address c1 w1 saveData
        | none => finishLookup data none address c1 w1 saveData
      else finishLookup data item0 address c1 w1 saveData
    else finishLookup data item0 address cache w saveData

/-- One iteration of a `build_cache` loop for one configuration entry. -/
def buildCacheStep (cache : Cache) (w : World) (data : PyDict) : Cache × World :=
  let key := getCacheKey data
  let needs :=
    match cacheGet cache key with
    | none => true
    | some it => it.credentials.isEmpty
  if needs then
    let (resp, c1, w1, _) := loginM data true cache w
    if isLoginSuccess resp then
      match cacheGet c1 key with
      | some it =>
        if it.credentials.isEmpty then
          let (it2, w2) := fillItem it w1
          (cacheSet c1 key it2, w2)
        else (c1, w1)
      | none => (c1, w1)
    else (c1, w1)
  else (cache, w)

/-- Source `build_cache` over the data of every known configuration entry (the two
source loops, over cloud-integration entries and BLE entries, have the same
body; their entries are concatenated here). -/
def buildCache (entries : List PyDict) (cache : Cache) (w : World) : Cache × World :=
  entries.foldl (fun cw data => buildCacheStep cw.1 cw.2 data) (cache, w)

/-! ### Concrete scenario data used by witnesses and counterexamples -/

/-- Stand-in for `hmac.new(key, msg, sha256).hexdigest()` in witnesses. -/
def hmacFake (key msg : String) : String :=
  "hmac(" ++ key ++ "|" ++ msg ++ ")"

/-- Stand-in for `hashlib.sha256(body).hexdigest()` in witnesses. -/
def shaFake (body : String) : String :=
  "sha(" ++ body ++ ")"

/-- A serialized non-empty request body. -/
def c2Body : String := "\x7b\"grant_type\": 1\x7d"

/-- A client that holds a token, with a falsy configured device id. -/
def c3Api : ApiState :=
  { apiKey := some (.jstr "K"), apiSecret := some (.jstr "S"),
    apiDeviceId := some (.jstr ""), region := "eu",
    token := some (.jstr "TOK"), error := none }

/-- A client mid-fill, used to drive `fillDevices` on a malformed MAC. -/
def c4FillApi : ApiState :=
  { apiKey := some (.jstr "K"), apiSecret := some (.jstr "S"),
    apiDeviceId := some (.jstr ""), region := "eu",
    token := some (.jstr "TOK"), error := none }

/-- A device-list entry with an id only. -/
def c4Device : JVal := .jobj [("id", .jstr "d1")]

/-- A factory-info response carrying a malformed (non-hex, 7-char) MAC. -/
def c4Factory : JVal :=
  .jobj [("success", .jbool true), ("result", .jarr [.jobj [("mac", .jstr "nothexx")]])]

/-- A complete login-field configuration. -/
def c5Data : PyDict :=
  [("access_id", some (.jstr "AKX")), ("access_secret", some (.jstr "SX")),
   ("tuya_device_id", some (.jstr "D")), ("region", some (.jstr "eu"))]

/-- A stored credential record for one address. -/
def c6Rec : PyDict :=
  [("address", some (.jstr "AA:AA:AA:AA:AA:AA")), ("uuid", some (.jstr "u1")),
   ("local_key", some (.jstr "lk1")), ("device_id", some (.jstr "d1")),
   ("category", some (.jstr "cat")), ("product_id", some (.jstr "p1")),
   ("device_name", some (.jstr "lamp")), ("product_model", some (.jstr "m1")),
   ("product_name", some (.jstr "Lamp"))]

/-- A filled cache entry holding `c6Rec`. -/
def c6Item : CacheItem :=
  { api := c3Api,
    login := [("access_id", some (.jstr "A6")), ("access_secret", some (.jstr "S6")),
              ("tuya_device_id", some (.jstr "")), ("region", some (.jstr "eu"))],
    credentials := [("AA:AA:AA:AA:AA:AA", c6Rec)] }

/-- Caller data that already carries every device-credential field. -/
def c7Data : PyDict :=
  [("uuid", some (.jstr "u7")), ("local_key", some (.jstr "lk7")),
   ("device_id", some (.jstr "d7")), ("category", some (.jstr "cat7")),
   ("product_id", some (.jstr "p7")), ("device_name", some (.jstr "n7")),
   ("product_name", some (.jstr "pn7")), ("product_model", some (.jstr "m7"))]

/-- A login configuration with no `tuya_device_id` at all. -/
def c8IncompleteData : PyDict :=
  [("access_id", some (.jstr "AKIA")), ("access_secret", some (.jstr "SEC")),
   ("region", some (.jstr "eu"))]

/-- A successful token response. -/
def c8TokenResp : JVal :=
  .jobj [("success", .jbool true), ("result", .jobj [("access_token", .jstr "TOK")])]

/-- Configuration dictionary, one insertion order, with an extra field. -/
def c9d1 : PyDict :=
  [("region", some (.jstr "eu")), ("access_id", some (.jstr "A")),
   ("access_secret", some (.jstr "S")), ("extra", some (.jnum 5))]

/-- The same login fields in another insertion order with other extras. -/
def c9d2 : PyDict :=
  [("access_id", some (.jstr "A")), ("other", none),
   ("access_secret", some (.jstr "S")), ("region", some (.jstr "eu"))]

/-- A cached client for the C10 fill scenario. -/
def c10Api : ApiState :=
  { apiKey := some (.jstr "K"), apiSecret := some (.jstr "S"),
    apiDeviceId := some (.jstr ""), region := "eu",
    token := some (.jstr "TOK"), error := none }

/-- The login data of the C10 cache entry. -/
def c10Login : PyDict :=
  [("access_id", some (.jstr "K")), ("access_secret", some (.jstr "S")),
   ("tuya_device_id", some (.jstr "")), ("region", some (.jstr "eu"))]

/-- A device listing whose single device carries only an `id` — no `uuid`,
`local_key`, `category`, `product_id`, `name`, `model` or `product_name`. -/
def c10DevList : JVal :=
  .jobj [("success", .jbool true), ("result", .jarr [.jobj [("id", .jstr "dev1")]])]

/-- Factory info resolving that device to the raw MAC `aabbccddeeff`. -/
def c10Factory : JVal :=
  .jobj [("success", .jbool true), ("result", .jarr [.jobj [("mac", .jstr "aabbccddeeff")]])]

/-- The cache entry produced by filling an empty entry from those responses. -/
def c10FilledItem : CacheItem :=
  (fillItem ⟨c10Api, c10Login, []⟩ ⟨[.ok c10DevList, .ok c10Factory]⟩).1

/-- A stored record whose `uuid` is present but `None`. -/
def c10WRec : PyDict :=
  [("uuid", none), ("local_key", some (.jstr "LK"))]

/-- A cache entry holding `c10WRec` under address `AD`. -/
def c10WItem : CacheItem :=
  { api := c10Api, login := c10Login, credentials := [("AD", c10WRec)] }

/-! ### Helper lemmas -/

/-- Scanning past the concrete prefix `https://`, the double slash is first
found at the scheme separator. -/
theorem afterFirst_https (t : List Char) :
    afterFirst ['/', '/'] (['h', 't', 't', 'p', 's', ':', '/', '/'] ++ t) = some t := by
  simp [afterFirst, List.isPrefixOf]

/-- Scanning a slash-free prefix, the first `/` is the one that follows it. -/
theorem afterFirst_hostSlash (hs r : List Char) (h : ∀ c ∈ hs, c ≠ '/') :
    afterFirst ['/'] (hs ++ '/' :: r) = some r := by
  induction hs with
  | nil => simp [afterFirst, List.isPrefixOf]
  | cons c cs ih =>
    have hc : ('/' == c) = false := by
      have := h c (List.mem_cons_self c cs)
      simp only [beq_eq_false_iff_ne]
      exact fun h' => this h'.symm
    simp only [List.cons_append, afterFirst, List.isPrefixOf, hc, Bool.false_and,
      Bool.false_eq_true, if_false]
    exact ih fun x hx => h x (List.mem_cons_of_mem c hx)

/-- The code's `'/' + url.split('//', 1)[-1].split('/', 1)[-1]` recovers the
path of `https://host + path` when the host has no slash. -/
theorem urlPath_append (host p : String) (hh : noSlash host = true)
    (hp : strStartsWith "/" p = true) :
    urlPath ("https://" ++ host ++ p) = p := by
  obtain ⟨r, hr⟩ : ∃ r, p.data = '/' :: r := by
    cases hd : p.data with
    | nil => rw [strStartsWith, hd] at hp; simp [List.isPrefixOf] at hp
    | cons c t =>
      rw [strStartsWith, hd] at hp
      simp only [List.isPrefixOf, Bool.and_true, beq_iff_eq] at hp
      exact ⟨t, by rw [hp]⟩
  have hnos : ∀ c ∈ host.data, c ≠ '/' := by
    intro c hc
    have := List.all_eq_true.mp hh c hc
    simpa using this
  have hdata : ("https://" ++ host ++ p).data
      = ['h', 't', 't', 'p', 's', ':', '/', '/'] ++ (host.data ++ p.data) := by
    show ("https://".data ++ host.data) ++ p.data
      = ['h', 't', 't', 'p', 's', ':', '/', '/'] ++ (host.data ++ p.data)
    simp [List.append_assoc]
  have h1 : pySplit1Last "//" ("https://" ++ host ++ p) = String.mk (host.data ++ p.data) := by
    rw [pySplit1Last]
    rw [show ("//" : String).data = ['/', '/'] from rfl, hdata, afterFirst_https]
  have h2 : pySplit1Last "/" (String.mk (host.data ++ p.data)) = String.mk r := by
    rw [pySplit1Last]
    rw [show (String.mk (host.data ++ p.data)).data = host.data ++ p.data from rfl,
      show ("/" : String).data = ['/'] from rfl, hr, afterFirst_hostSlash host.data r hnos]
  rw [urlPath, h1, h2]
  show String.mk ('/' :: r) = p
  cases p with
  | mk d => simp at hr; rw [hr]

/-- A successful association-list lookup is a member. -/
theorem alookup_mem {α : Type} {l : List (String × α)} {k : String} {v : α}
    (h : alookup l k = some v) : (k, v) ∈ l := by
  induction l with
  | nil => simp [alookup] at h
  | cons p rest ih =>
    obtain ⟨k', v'⟩ := p
    rw [alookup] at h
    split at h
    · next heq => cases h; exact heq ▸ List.mem_cons_self _ _
    · exact List.mem_cons_of_mem _ (ih h)

/-- Every regional host the client can pick contains no slash. -/
theorem getUrlHost_noSlash (region : String) : noSlash (getUrlHost region) = true := by
  rw [getUrlHost]
  cases h : alookup tuyaEndpoints (pyLower region) with
  | none => decide
  | some v =>
    have hall : tuyaEndpoints.all (fun p => noSlash p.2) = true := by decide
    simpa using List.all_eq_true.mp hall _ (alookup_mem h)

/-- String concatenation is associative. -/
theorem str_append_assoc (a b c : String) : a ++ b ++ c = a ++ (b ++ c) := by
  cases a; cases b; cases c
  show String.mk _ = String.mk _
  rw [List.append_assoc]

/-- Appending the empty string is the identity. -/
theorem str_append_empty (a : String) : a ++ "" = a := by
  cases a
  show String.mk _ = String.mk _
  rw [List.append_nil]

/-- Updating a key makes it found with the new value. -/
theorem alookup_aset_self {α : Type} (l : List (String × α)) (k : String) (v : α) :
    alookup (aset l k v) k = some v := by
  induction l with
  | nil => simp [aset, alookup]
  | cons p rest ih =>
    obtain ⟨k', v'⟩ := p
    by_cases h : k' = k
    · simp [aset, alookup, h]
    · simp [aset, alookup, h, ih]

/-- The result-assembly tail of `get_device_credentials` never touches the
cache or the oracle. -/
theorem finishCreds_proj (data : PyDict) (item : Option CacheItem) (credentials : Option PyDict)
    (cache : Cache) (w : World) (saveData : Bool) :
    (finishCreds data item credentials cache w saveData).2.2.1 = cache
    ∧ (finishCreds data item credentials cache w saveData).2.2.2 = w := by
  cases credentials with
  | none => exact ⟨rfl, rfl⟩
  | some c => by_cases hc : c.isEmpty <;> simp [finishCreds, hc]

/-- The result of the assembly tail, as a function of the located record. -/
theorem finishCreds_fst (data : PyDict) (item : Option CacheItem) (credentials : Option PyDict)
    (cache : Cache) (w : World) (saveData : Bool) :
    (finishCreds data item credentials cache w saveData).1
      = credentials.bind fun c => if c.isEmpty then none else some (mkDeviceCredentials c) := by
  cases credentials with
  | none => rfl
  | some c => by_cases hc : c.isEmpty <;> simp [finishCreds, hc]

/-- Without `force_update`, a located cache entry short-circuits the resolver
to the final lookup: no login, no fill. -/
theorem getDeviceCredentials_cached (data : PyDict) (address k : String) (item : CacheItem)
    (saveData : Bool) (cache : Cache) (w : World)
    (hc : hasCredentials data = false)
    (hk : selectCacheKey data address cache = some k)
    (hi : cacheGet cache k = some item) :
    getDeviceCredentials data address false saveData cache w
      = finishLookup data (some item) address cache w saveData := by
  simp [getDeviceCredentials, hc, hk, hi]

/-- Data that passes `_has_credentials` is a non-empty dictionary. -/
theorem hasCredentials_ne_nil (data : PyDict) (h : hasCredentials data = true) :
    data.isEmpty = false := by
  cases data with
  | nil => simp [hasCredentials, CONF_TUYA_DEVICE_KEYS, pyGetNone, alookup] at h
  | cons p rest => rfl

/-- Python `None` is falsy. -/
theorem pyTruthy_none : pyTruthy none = false := rfl

/-! ### Claim theorems -/

/-- C1: for every request `_make_request` issues (any key, secret, stored
token or none, timestamp, method, body and any uri that is not itself an
absolute `http` URL nor a `//`-prefixed path — every endpoint this client
uses), the `sign` header is the uppercase hex HMAC-SHA256, keyed by the
secret, of `key + (token if stored) + t + method + "\n" + sha256-hex of the
body (empty string when there is no body) + "\n\n" + the request path`,
where the path begins with a single leading slash and carries no scheme or
host.  `hmacHex`/`shaHex` are the lowercase `hexdigest` primitives. -/
theorem tuya_sign_is_hmac_of_canonical_payload
    (hmacHex : String → String → String) (shaHex : String → String)
    (key secret t method uri region : String) (token : Option String) (data : Option String)
    (h1 : strStartsWith "http" uri = false) (h2 : strStartsWith "//" uri = false) :
    makeRequestSign hmacHex shaHex key secret token region t method uri data
      = pyUpper (hmacHex secret (key ++ token.getD "" ++ t ++ method ++ "\n"
          ++ shaHex (data.getD "") ++ "\n\n" ++ specCanonicalPath uri))
    ∧ strStartsWith "/" (specCanonicalPath uri) = true
    ∧ strStartsWith "//" (specCanonicalPath uri) = false := by
  have hhost := getUrlHost_noSlash region
  by_cases hs : strStartsWith "/" uri = true
  · have hpath : urlPath (buildUrl (getUrlHost region) uri) = uri := by
      rw [buildUrl, if_pos hs]; exact urlPath_append _ _ hhost hs
    refine ⟨?_, ?_, ?_⟩
    · cases token <;> cases data <;>
        simp [makeRequestSign, generateSignature, specCanonicalPath, hs, hpath,
          str_append_empty]
    · rw [specCanonicalPath, if_pos hs]; exact hs
    · rw [specCanonicalPath, if_pos hs]; exact h2
  · have hs' : strStartsWith "/" uri = false := by simpa using hs
    have hp : strStartsWith "/" (("/v1.0/" : String) ++ uri) = true := by
      simp [strStartsWith, List.isPrefixOf]
    have hpp : strStartsWith "//" (("/v1.0/" : String) ++ uri) = false := by
      simp [strStartsWith, List.isPrefixOf]
    have hpath : urlPath (buildUrl (getUrlHost region) uri) = "/v1.0/" ++ uri := by
      rw [buildUrl, if_neg (by simp [hs']), if_neg (by simp [h1]), str_append_assoc]
      exact urlPath_append _ _ hhost hp
    refine ⟨?_, ?_, ?_⟩
    · cases token <;> cases data <;>
        simp [makeRequestSign, generateSignature, specCanonicalPath, hs', hpath,
          str_append_empty]
    · rw [specCanonicalPath, if_neg (by simp [hs'])]; exact hp
    · rw [specCanonicalPath, if_neg (by simp [hs'])]; exact hpp

/-- Witness for C1: the token-acquisition request with no stored token. -/
theorem tuya_sign_is_hmac_of_canonical_payload_witness :
    strStartsWith "http" "token?grant_type=1" = false
    ∧ strStartsWith "//" "token?grant_type=1" = false
    ∧ (makeRequestSign hmacFake shaFake "KEY" "SECRET" none "eu" "1700000000000" "GET"
          "token?grant_type=1" none
        = pyUpper (hmacFake "SECRET" ("KEY" ++ (none : Option String).getD ""
            ++ "1700000000000" ++ "GET" ++ "\n"
            ++ shaFake ((none : Option String).getD "") ++ "\n\n"
            ++ specCanonicalPath "token?grant_type=1"))
      ∧ strStartsWith "/" (specCanonicalPath "token?grant_type=1") = true
      ∧ strStartsWith "//" (specCanonicalPath "token?grant_type=1") = false) :=
  ⟨by decide, by decide,
    tuya_sign_is_hmac_of_canonical_payload hmacFake shaFake "KEY" "SECRET" "1700000000000"
      "GET" "token?grant_type=1" "eu" none none (by decide) (by decide)⟩

/-- C2: header and payload selection.  `_make_request` discriminates on the
stored token — exactly the state in which the client issues each kind of
request: a token-acquisition request is sent with no stored token (`_login`
calls `get_token` on a fresh client; the other methods only reach their
endpoints with a truthy token).  With no token the headers are `client_id`,
`sign_method`, `t`, `sign` and `secret`, no `access_token`, and the signed
payload has no token segment; with a stored token the request carries
`access_token` and no `secret`, and the payload includes the token.  A
`Content-Type: application/json` header is present exactly when the body is
non-empty (`json.dumps` of a truthy dict is never the empty string, the
hypothesis `hd`). -/
theorem request_headers_by_token_state
    (hmacHex : String → String → String) (shaHex : String → String)
    (key secret t method uri region : String) (token : Option String) (data : Option String)
    (hd : ∀ d, data = some d → d ≠ "") :
    (token = none →
      ("client_id", key) ∈ makeRequestHeaders hmacHex shaHex key secret token region t method uri data
      ∧ ("sign_method", "HMAC-SHA256") ∈ makeRequestHeaders hmacHex shaHex key secret token region t method uri data
      ∧ ("t", t) ∈ makeRequestHeaders hmacHex shaHex key secret token region t method uri data
      ∧ ("secret", secret) ∈ makeRequestHeaders hmacHex shaHex key secret token region t method uri data
      ∧ (∀ v, ("access_token", v) ∉ makeRequestHeaders hmacHex shaHex key secret token region t method uri data)
      ∧ ("sign", pyUpper (hmacHex secret (key ++ t ++ method ++ "\n"
            ++ shaHex (data.getD "") ++ "\n\n"
            ++ urlPath (buildUrl (getUrlHost region) uri))))
          ∈ makeRequestHeaders hmacHex shaHex key secret token region t method uri data)
    ∧ (∀ tok, token = some tok →
      ("client_id", key) ∈ makeRequestHeaders hmacHex shaHex key secret token region t method uri data
      ∧ ("access_token", tok) ∈ makeRequestHeaders hmacHex shaHex key secret token region t method uri data
      ∧ (∀ v, ("secret", v) ∉ makeRequestHeaders hmacHex shaHex key secret token region t method uri data)
      ∧ ("sign", pyUpper (hmacHex secret (key ++ tok ++ t ++ method ++ "\n"
            ++ shaHex (data.getD "") ++ "\n\n"
            ++ urlPath (buildUrl (getUrlHost region) uri))))
          ∈ makeRequestHeaders hmacHex shaHex key secret token region t method uri data)
    ∧ ((("Content-Type", "application/json")
          ∈ makeRequestHeaders hmacHex shaHex key secret token region t method uri data)
        ↔ (data.getD "" ≠ "")) := by
  refine ⟨?_, ?_, ?_⟩
  · rintro rfl
    cases data <;>
      simp [makeRequestHeaders, makeRequestSign, generateSignature]
  · rintro tok rfl
    cases data <;>
      simp [makeRequestHeaders, makeRequestSign, generateSignature]
  · cases data with
    | none => cases token <;> simp [makeRequestHeaders]
    | some d =>
      have := hd d rfl
      cases token <;> simp [makeRequestHeaders, this]

/-- Witness for C2: a token-acquisition request carrying a non-empty body. -/
theorem request_headers_by_token_state_witness :
    (∀ d, (some c2Body : Option String) = some d → d ≠ "")
    ∧ (((none : Option String) = none →
      ("client_id", "KEY") ∈ makeRequestHeaders hmacFake shaFake "KEY" "SEC" none "eu" "17" "GET" "token?grant_type=1" (some c2Body)
      ∧ ("sign_method", "HMAC-SHA256") ∈ makeRequestHeaders hmacFake shaFake "KEY" "SEC" none "eu" "17" "GET" "token?grant_type=1" (some c2Body)
      ∧ ("t", "17") ∈ makeRequestHeaders hmacFake shaFake "KEY" "SEC" none "eu" "17" "GET" "token?grant_type=1" (some c2Body)
      ∧ ("secret", "SEC") ∈ makeRequestHeaders hmacFake shaFake "KEY" "SEC" none "eu" "17" "GET" "token?grant_type=1" (some c2Body)
      ∧ (∀ v, ("access_token", v) ∉ makeRequestHeaders hmacFake shaFake "KEY" "SEC" none "eu" "17" "GET" "token?grant_type=1" (some c2Body))
      ∧ ("sign", pyUpper (hmacFake "SEC" ("KEY" ++ "17" ++ "GET" ++ "\n"
            ++ shaFake ((some c2Body : Option String).getD "") ++ "\n\n"
            ++ urlPath (buildUrl (getUrlHost "eu") "token?grant_type=1"))))
          ∈ makeRequestHeaders hmacFake shaFake "KEY" "SEC" none "eu" "17" "GET" "token?grant_type=1" (some c2Body))
    ∧ (∀ tok, (none : Option String) = some tok →
      ("client_id", "KEY") ∈ makeRequestHeaders hmacFake shaFake "KEY" "SEC" none "eu" "17" "GET" "token?grant_type=1" (some c2Body)
      ∧ ("access_token", tok) ∈ makeRequestHeaders hmacFake shaFake "KEY" "SEC" none "eu" "17" "GET" "token?grant_type=1" (some c2Body)
      ∧ (∀ v, ("secret", v) ∉ makeRequestHeaders hmacFake shaFake "KEY" "SEC" none "eu" "17" "GET" "token?grant_type=1" (some c2Body))
      ∧ ("sign", pyUpper (hmacFake "SEC" ("KEY" ++ tok ++ "17" ++ "GET" ++ "\n"
            ++ shaFake ((some c2Body : Option String).getD "") ++ "\n\n"
            ++ urlPath (buildUrl (getUrlHost "eu") "token?grant_type=1"))))
          ∈ makeRequestHeaders hmacFake shaFake "KEY" "SEC" none "eu" "17" "GET" "token?grant_type=1" (some c2Body))
    ∧ ((("Content-Type", "application/json")
          ∈ makeRequestHeaders hmacFake shaFake "KEY" "SEC" none "eu" "17" "GET" "token?grant_type=1" (some c2Body))
        ↔ ((some c2Body : Option String).getD "" ≠ ""))) := by
  have hd : ∀ d, (some c2Body : Option String) = some d → d ≠ "" := by
    intro d h
    cases h
    decide
  exact ⟨hd, request_headers_by_token_state hmacFake shaFake "KEY" "SEC" "17" "GET"
    "token?grant_type=1" "eu" none (some c2Body) hd⟩

/-- C3: when the underlying HTTP request fails (transport error or a body
`json.loads` rejects — both are the oracle's `.error e`, re-raised as
`TuyaCloudAPIError("Request failed: ...")`), every public method returns a
plain value and no exception escapes: `get_token` returns `None` storing the
error envelope, `get_user_id` returns `None`, `get_devices` and
`cloud_request` return `{"success": False, "msg": ...}`; the same holds when
the failure hits the token fetch performed on behalf of a token-less client
(the last three conjuncts).  The methods are total functions into plain
result values — the model has no escape channel, mirroring the catch-all
`except` blocks that close each method. -/
theorem public_methods_return_failure_envelopes
    (e : String) (a : ApiState) (rest : Oracle) (k s : String)
    (hk : asPyStr a.apiKey = some k) (hs : asPyStr a.apiSecret = some s)
    (htok : tokenTruthy a.token = true) (hdev : pyTruthy a.apiDeviceId = false) :
    getToken a ⟨.error e :: rest⟩
      = (none, { a with error := some (errEnv (.jstr ("Request failed: " ++ e)) .jnull) }, ⟨rest⟩)
    ∧ getUserId a ⟨.error e :: rest⟩ = (none, a, ⟨rest⟩)
    ∧ getDevices a none ⟨.error e :: rest⟩
        = (.jobj [("success", .jbool false), ("msg", .jstr ("Request failed: " ++ e))], a, ⟨rest⟩)
    ∧ cloudRequest a ⟨.error e :: rest⟩
        = (.jobj [("success", .jbool false), ("msg", .jstr ("Request failed: " ++ e))], a, ⟨rest⟩)
    ∧ getUserId { a with token := none } ⟨.error e :: rest⟩
        = (none,
           { a with
             token := none
             error := some (errEnv (.jstr ("Request failed: " ++ e)) .jnull) }, ⟨rest⟩)
    ∧ getDevices { a with token := none } none ⟨.error e :: rest⟩
        = (.jobj [("success", .jbool false), ("msg", .jstr "Failed to get token")],
           { a with
             token := none
             error := some (errEnv (.jstr ("Request failed: " ++ e)) .jnull) }, ⟨rest⟩)
    ∧ cloudRequest { a with token := none } ⟨.error e :: rest⟩
        = (.jobj [("success", .jbool false), ("msg", .jstr "Failed to get token")],
           { a with
             token := none
             error := some (errEnv (.jstr ("Request failed: " ++ e)) .jnull) }, ⟨rest⟩) := by
  refine ⟨?_, ?_, ?_, ?_, ?_, ?_, ?_⟩
  · simp [getToken, hk, hs, makeRequestW]
  · simp [getUserId, htok, getUserIdCore, makeRequestW]
  · simp [getDevices, htok, getDevicesAuthed, pyTruthy_none, hdev, getDevicesCore, makeRequestW]
  · simp [cloudRequest, htok, cloudRequestCore, makeRequestW]
  · simp [getUserId, tokenTruthy, getToken, hk, hs, makeRequestW]
  · simp [getDevices, tokenTruthy, getToken, hk, hs, makeRequestW]
  · simp [cloudRequest, tokenTruthy, getToken, hk, hs, makeRequestW]

/-- Witness for C3: a connection reset against a client holding a token. -/
theorem public_methods_return_failure_envelopes_witness :
    asPyStr c3Api.apiKey = some "K"
    ∧ asPyStr c3Api.apiSecret = some "S"
    ∧ tokenTruthy c3Api.token = true
    ∧ pyTruthy c3Api.apiDeviceId = false
    ∧ (getToken c3Api ⟨[.error "reset"]⟩
        = (none, { c3Api with
            error := some (errEnv (.jstr ("Request failed: " ++ "reset")) .jnull) }, ⟨[]⟩)
      ∧ getUserId c3Api ⟨[.error "reset"]⟩ = (none, c3Api, ⟨[]⟩)
      ∧ getDevices c3Api none ⟨[.error "reset"]⟩
          = (.jobj [("success", .jbool false), ("msg", .jstr ("Request failed: " ++ "reset"))],
             c3Api, ⟨[]⟩)
      ∧ cloudRequest c3Api ⟨[.error "reset"]⟩
          = (.jobj [("success", .jbool false), ("msg", .jstr ("Request failed: " ++ "reset"))],
             c3Api, ⟨[]⟩)
      ∧ getUserId { c3Api with token := none } ⟨[.error "reset"]⟩
          = (none,
             { c3Api with
               token := none
               error := some (errEnv (.jstr ("Request failed: " ++ "reset")) .jnull) }, ⟨[]⟩)
      ∧ getDevices { c3Api with token := none } none ⟨[.error "reset"]⟩
          = (.jobj [("success", .jbool false), ("msg", .jstr "Failed to get token")],
             { c3Api with
               token := none
               error := some (errEnv (.jstr ("Request failed: " ++ "reset")) .jnull) }, ⟨[]⟩)
      ∧ cloudRequest { c3Api with token := none } ⟨[.error "reset"]⟩
          = (.jobj [("success", .jbool false), ("msg", .jstr "Failed to get token")],
             { c3Api with
               token := none
               error := some (errEnv (.jstr ("Request failed: " ++ "reset")) .jnull) }, ⟨[]⟩)) :=
  ⟨rfl, rfl, rfl, rfl,
    public_methods_return_failure_envelopes "reset" c3Api [] "K" "S" rfl rfl rfl rfl⟩

/-- C4 counterexample: the claim says an already-canonical address is
returned unchanged; the code slices positions 0..11 and joins with colons
unconditionally, so the canonical form is mangled instead. -/
theorem mac_normalization_mangles_canonical :
    normalizeMac "AA:BB:CC:DD:EE:FF" ≠ "AA:BB:CC:DD:EE:FF" := by decide

/-- C4 amended: the normalization maps the raw 12-hex-character string
`aabbccddeeff` to `AA:BB:CC:DD:EE:FF`, but it checks nothing: an input
already in canonical form is re-sliced to `AA::B:B::CC::D:D:` rather than
returned unchanged, and a malformed input (wrong length, non-hex) is not
rejected — `_fill_cache_item` stores a credential record under the sliced
string (here a 7-character non-hex MAC is stored under `NO:TH:EX:X::`). -/
theorem mac_normalization_actual_behavior :
    normalizeMac "aabbccddeeff" = "AA:BB:CC:DD:EE:FF"
    ∧ normalizeMac "AA:BB:CC:DD:EE:FF" = "AA::B:B::CC::D:D:"
    ∧ ((fillDevices [c4Device] c4FillApi [] ⟨[.ok c4Factory]⟩).1.map Prod.fst
        = [normalizeMac "nothexx"])
    ∧ normalizeMac "nothexx" = "NO:TH:EX:X::" :=
  ⟨by decide, by decide, rfl, by decide⟩

/-- C5: when the token endpoint answers `success: false` with message `m`
and code `c`, `get_token` stores the structured error
`{success: False, msg: m, code: c}` and returns no token, and
`_login(data, add_to_cache := True)` returns the envelope
`{success: False, msg: m, code: c}` while the cache is left untouched and
the client holds no token (the returned client state has `token := none`). -/
theorem login_failure_returns_error_envelope_and_leaves_cache
    (m c : JVal) (data : PyDict) (cache : Cache) (rest : Oracle) (reg ak sec : String)
    (hne : data.isEmpty = false)
    (hreg : asPyStr (pyGetD data "region" (some (.jstr "eu"))) = some reg)
    (hak : asPyStr (pyGetD data "access_id" (some (.jstr ""))) = some ak)
    (hsec : asPyStr (pyGetD data "access_secret" (some (.jstr ""))) = some sec) :
    loginM data true cache
        ⟨.ok (.jobj [("success", .jbool false), ("msg", m), ("code", c)]) :: rest⟩
      = (.jobj [("success", .jbool false), ("msg", m), ("code", c)], cache, ⟨rest⟩,
         some { apiOf data reg with error := some (errEnv m c) })
    ∧ ({ apiOf data reg with error := some (errEnv m c) } : ApiState).token = none := by
  refine ⟨?_, rfl⟩
  simp [loginM, hne, hreg, getToken, apiOf, hak, hsec, makeRequestW, alookup, pyTruthy,
    jTruthy, errEnv]

/-- Witness for C5: `{success: false, msg: "invalid client", code: 1001}`. -/
theorem login_failure_returns_error_envelope_and_leaves_cache_witness :
    c5Data.isEmpty = false
    ∧ asPyStr (pyGetD c5Data "region" (some (.jstr "eu"))) = some "eu"
    ∧ asPyStr (pyGetD c5Data "access_id" (some (.jstr ""))) = some "AKX"
    ∧ asPyStr (pyGetD c5Data "access_secret" (some (.jstr ""))) = some "SX"
    ∧ (loginM c5Data true []
          ⟨[.ok (.jobj [("success", .jbool false), ("msg", .jstr "invalid client"),
            ("code", .jnum 1001)])]⟩
        = (.jobj [("success", .jbool false), ("msg", .jstr "invalid client"),
            ("code", .jnum 1001)], [], ⟨[]⟩,
           some { apiOf c5Data "eu" with
                  error := some (errEnv (.jstr "invalid client") (.jnum 1001)) })
      ∧ ({ apiOf c5Data "eu" with
           error := some (errEnv (.jstr "invalid client") (.jnum 1001)) } : ApiState).token
          = none) :=
  ⟨rfl, rfl, rfl, rfl,
    login_failure_returns_error_envelope_and_leaves_cache (.jstr "invalid client") (.jnum 1001)
      c5Data [] [] "eu" "AKX" "SX" rfl rfl rfl rfl⟩

/-- C6: with `force_update = false` and a caller without a full credential
set, when key selection resolves to an existing cache entry (directly or by
scan), `get_device_credentials` performs no login and no fill — the oracle
is not consumed and the cache (hence the entry's credential map) is
unchanged — and the result is read straight from the entry's existing
credential map. -/
theorem cached_entry_lookup_no_network_no_mutation
    (data : PyDict) (address k : String) (item : CacheItem)
    (saveData : Bool) (cache : Cache) (w : World)
    (hc : hasCredentials data = false)
    (hk : selectCacheKey data address cache = some k)
    (hi : cacheGet cache k = some item)
    (_hne : item.credentials.isEmpty = false) :
    (getDeviceCredentials data address false saveData cache w).2.2.1 = cache
    ∧ (getDeviceCredentials data address false saveData cache w).2.2.2 = w
    ∧ (getDeviceCredentials data address false saveData cache w).1
        = (alookup item.credentials address).bind
            (fun c => if c.isEmpty then none else some (mkDeviceCredentials c)) := by
  rw [getDeviceCredentials_cached data address k item saveData cache w hc hk hi]
  rw [finishLookup]
  refine ⟨(finishCreds_proj _ _ _ _ _ _).1, (finishCreds_proj _ _ _ _ _ _).2, ?_⟩
  rw [finishCreds_fst]
  rfl

/-- Witness for C6: a scan hit on a filled entry, empty caller data. -/
theorem cached_entry_lookup_no_network_no_mutation_witness :
    hasCredentials [] = false
    ∧ selectCacheKey [] "AA:AA:AA:AA:AA:AA" [("K6", c6Item)] = some "K6"
    ∧ cacheGet [("K6", c6Item)] "K6" = some c6Item
    ∧ c6Item.credentials.isEmpty = false
    ∧ ((getDeviceCredentials [] "AA:AA:AA:AA:AA:AA" false false [("K6", c6Item)] ⟨[]⟩).2.2.1
        = [("K6", c6Item)]
      ∧ (getDeviceCredentials [] "AA:AA:AA:AA:AA:AA" false false [("K6", c6Item)] ⟨[]⟩).2.2.2
        = ⟨[]⟩
      ∧ (getDeviceCredentials [] "AA:AA:AA:AA:AA:AA" false false [("K6", c6Item)] ⟨[]⟩).1
        = (alookup c6Item.credentials "AA:AA:AA:AA:AA:AA").bind
            (fun c => if c.isEmpty then none else some (mkDeviceCredentials c))) :=
  ⟨rfl, rfl, rfl, rfl,
    cached_entry_lookup_no_network_no_mutation [] "AA:AA:AA:AA:AA:AA" "K6" c6Item false
      [("K6", c6Item)] ⟨[]⟩ rfl rfl rfl rfl⟩

/-- C7: when the caller's data already carries a non-`None` value for all
eight device-credential keys and `force_update = false`,
`get_device_credentials` answers from that data alone: the result is the
record built from those fields, the oracle is untouched (no `TuyaCloudAPI`
call) and the cache is unchanged (no entry created or filled). -/
theorem credential_fast_path_no_network
    (data : PyDict) (address : String) (saveData : Bool) (cache : Cache) (w : World)
    (hc : hasCredentials data = true) :
    (getDeviceCredentials data address false saveData cache w).1 = some (mkDeviceCredentials data)
    ∧ (getDeviceCredentials data address false saveData cache w).2.2.1 = cache
    ∧ (getDeviceCredentials data address false saveData cache w).2.2.2 = w := by
  have hfast : getDeviceCredentials data address false saveData cache w
      = finishCreds data none (some data) cache w saveData := by
    simp [getDeviceCredentials, hc]
  rw [hfast]
  refine ⟨?_, (finishCreds_proj _ _ _ _ _ _).1, (finishCreds_proj _ _ _ _ _ _).2⟩
  rw [finishCreds_fst]
  simp [hasCredentials_ne_nil data hc]

/-- Witness for C7: fully populated caller data, an empty cache, no oracle. -/
theorem credential_fast_path_no_network_witness :
    hasCredentials c7Data = true
    ∧ ((getDeviceCredentials c7Data "AD:DR" false true [] ⟨[]⟩).1
        = some (mkDeviceCredentials c7Data)
      ∧ (getDeviceCredentials c7Data "AD:DR" false true [] ⟨[]⟩).2.2.1 = []
      ∧ (getDeviceCredentials c7Data "AD:DR" false true [] ⟨[]⟩).2.2.2 = ⟨[]⟩) :=
  ⟨rfl, credential_fast_path_no_network c7Data "AD:DR" true [] ⟨[]⟩ rfl⟩

/-- C8 counterexample: the claimed invariant — no cache entry is ever created
under a key from an identity missing one of the four login fields — fails.
`_login(data, add_to_cache=True)` computes `_get_cache_key(data)` with no
`_has_login` guard: with `tuya_device_id` absent and a successful token
response, a cache entry appears under the key that serializes the missing
field as `null`. -/
theorem incomplete_identity_creates_cache_entry :
    hasLogin c8IncompleteData = false
    ∧ (cacheGet (loginM c8IncompleteData true [] ⟨[.ok c8TokenResp]⟩).2.1
        (getCacheKey c8IncompleteData)).isSome = true
    ∧ getCacheKey c8IncompleteData
        = "\x7b\"access_id\": \"AKIA\", \"access_secret\": \"SEC\", \"tuya_device_id\": null, \"region\": \"eu\"\x7d" :=
  ⟨rfl, rfl, rfl⟩

/-- C8 amended: the `_has_login` guard protects only the direct cache-key
lookup inside `get_device_credentials` — with an incomplete identity the
selected key can only come from scanning existing entries.  `_login` with
`add_to_cache` (and therefore `build_cache`) keys the cache by
`_get_cache_key(data)` unconditionally, so whenever the token fetch succeeds
and `access_id` holds a string, a cache entry is created under the raw
data's key even when login fields are missing. -/
theorem cache_key_guard_only_in_get_device_credentials
    (data : PyDict) (address : String) (cache : Cache) (rest : Oracle)
    (tokv reg ak sec : String)
    (hlog : hasLogin data = false)
    (hne : data.isEmpty = false)
    (hreg : asPyStr (pyGetD data "region" (some (.jstr "eu"))) = some reg)
    (haid : alookup data "access_id" = some (some (.jstr ak)))
    (hsec : asPyStr (pyGetD data "access_secret" (some (.jstr ""))) = some sec)
    (htok : tokv ≠ "") :
    selectCacheKey data address cache = scanFor address cache
    ∧ (cacheGet
        (loginM data true cache
          ⟨.ok (.jobj [("success", .jbool true),
            ("result", .jobj [("access_token", .jstr tokv)])]) :: rest⟩).2.1
        (getCacheKey data)).isSome = true := by
  constructor
  · simp [selectCacheKey, hlog]
  · have hak : asPyStr (pyGetD data "access_id" (some (.jstr ""))) = some ak := by
      simp [pyGetD, haid, asPyStr]
    cases hcg : alookup cache (getCacheKey data) with
    | none =>
      simp [loginM, hne, hreg, getToken, apiOf, hak, hsec, makeRequestW, alookup, pyTruthy,
        jTruthy, htok, haid, hcg, cacheGet, cacheSet, alookup_aset_self]
    | some it =>
      simp [loginM, hne, hreg, getToken, apiOf, hak, hsec, makeRequestW, alookup, pyTruthy,
        jTruthy, htok, haid, hcg, cacheGet, cacheSet, alookup_aset_self]

/-- Witness for the amended C8: the incomplete identity itself. -/
theorem cache_key_guard_only_in_get_device_credentials_witness :
    hasLogin c8IncompleteData = false
    ∧ c8IncompleteData.isEmpty = false
    ∧ asPyStr (pyGetD c8IncompleteData "region" (some (.jstr "eu"))) = some "eu"
    ∧ alookup c8IncompleteData "access_id" = some (some (.jstr "AKIA"))
    ∧ asPyStr (pyGetD c8IncompleteData "access_secret" (some (.jstr ""))) = some "SEC"
    ∧ ("TOK" : String) ≠ ""
    ∧ (selectCacheKey c8IncompleteData "XX" [] = scanFor "XX" []
      ∧ (cacheGet
          (loginM c8IncompleteData true []
            ⟨[.ok (.jobj [("success", .jbool true),
              ("result", .jobj [("access_token", .jstr "TOK")])])]⟩).2.1
          (getCacheKey c8IncompleteData)).isSome = true) :=
  ⟨rfl, rfl, rfl, rfl, rfl, by decide,
    cache_key_guard_only_in_get_device_credentials c8IncompleteData "XX" [] [] "TOK" "eu"
      "AKIA" "SEC" rfl rfl rfl rfl rfl (by decide)⟩

/-- C9: `_get_cache_key` serializes exactly the four login fields, read via
`data.get` in a fixed key order, so any two configuration dictionaries that
agree on those four values get the same cache key, regardless of insertion
order and of any other fields. -/
theorem cache_key_depends_only_on_login_fields (d1 d2 : PyDict)
    (h : ∀ k ∈ CONF_TUYA_LOGIN_KEYS, pyGetNone d1 k = pyGetNone d2 k) :
    getCacheKey d1 = getCacheKey d2 := by
  have h1 := h "access_id" (by simp [CONF_TUYA_LOGIN_KEYS])
  have h2 := h "access_secret" (by simp [CONF_TUYA_LOGIN_KEYS])
  have h3 := h "tuya_device_id" (by simp [CONF_TUYA_LOGIN_KEYS])
  have h4 := h "region" (by simp [CONF_TUYA_LOGIN_KEYS])
  simp [getCacheKey, CONF_TUYA_LOGIN_KEYS, h1, h2, h3, h4]

/-- Witness for C9: two insertion orders with different extra fields (and
`tuya_device_id` absent from both, so both serialize it as `null`). -/
theorem cache_key_depends_only_on_login_fields_witness :
    (∀ k ∈ CONF_TUYA_LOGIN_KEYS, pyGetNone c9d1 k = pyGetNone c9d2 k)
    ∧ getCacheKey c9d1 = getCacheKey c9d2 := by
  have h : ∀ k ∈ CONF_TUYA_LOGIN_KEYS, pyGetNone c9d1 k = pyGetNone c9d2 k := by
    intro k hk
    simp only [CONF_TUYA_LOGIN_KEYS, List.mem_cons, List.not_mem_nil, or_false] at hk
    rcases hk with rfl | rfl | rfl | rfl <;> rfl
  exact ⟨h, cache_key_depends_only_on_login_fields c9d1 c9d2 h⟩

/-- C10 counterexample: the claim says the returned record never contains a
`None` field.  Filling a cache entry from a device listing that carries only
an `id` stores a record whose other values are Python `None` (present keys,
`None` values); `credentials.get(key, "")` then returns those `None`s, so
the resolver hands back a `TuyaBLEDeviceCredentials` whose `uuid` (and five
other fields) are `None`, not `""`. -/
theorem returned_credentials_can_contain_none :
    (getDeviceCredentials [] "AA:BB:CC:DD:EE:FF" false false
        [(getCacheKey c10Login, c10FilledItem)] ⟨[]⟩).1
      = some { uuid := none, localKey := none, deviceId := some (.jstr "dev1"),
               category := none, productId := none, deviceName := none,
               productModel := none, productName := none } := rfl

/-- C10 amended: whenever `get_device_credentials` locates a credentials
record in a cache entry, each field of the returned record equals
`credentials.get(key, "")`: the stored value whenever the key is present —
including a stored `None` — and the empty string only when the key is absent
from the record. -/
theorem returned_credentials_mirror_stored_record
    (data : PyDict) (address k : String) (item : CacheItem) (rec : PyDict)
    (saveData : Bool) (cache : Cache) (w : World)
    (hc : hasCredentials data = false)
    (hk : selectCacheKey data address cache = some k)
    (hi : cacheGet cache k = some item)
    (ha : alookup item.credentials address = some rec)
    (hne : rec.isEmpty = false) :
    (getDeviceCredentials data address false saveData cache w).1
      = some (mkDeviceCredentials rec)
    ∧ (∀ key v, alookup rec key = some v → credField rec key = v)
    ∧ (∀ key, alookup rec key = none → credField rec key = some (.jstr "")) := by
  refine ⟨?_, ?_, ?_⟩
  · rw [getDeviceCredentials_cached data address k item saveData cache w hc hk hi,
      finishLookup, finishCreds_fst]
    simp [ha, hne]
  · intro key v hv
    simp [credField, pyGetD, hv]
  · intro key hv
    simp [credField, pyGetD, hv]

/-- Witness for the amended C10: a stored record whose `uuid` is `None` and
whose other six credential keys are absent. -/
theorem returned_credentials_mirror_stored_record_witness :
    hasCredentials [] = false
    ∧ selectCacheKey [] "AD" [("KX", c10WItem)] = some "KX"
    ∧ cacheGet [("KX", c10WItem)] "KX" = some c10WItem
    ∧ alookup c10WItem.credentials "AD" = some c10WRec
    ∧ c10WRec.isEmpty = false
    ∧ ((getDeviceCredentials [] "AD" false false [("KX", c10WItem)] ⟨[]⟩).1
        = some (mkDeviceCredentials c10WRec)
      ∧ (∀ key v, alookup c10WRec key = some v → credField c10WRec key = v)
      ∧ (∀ key, alookup c10WRec key = none → credField c10WRec key = some (.jstr ""))) :=
  ⟨rfl, rfl, rfl, rfl, rfl,
    returned_credentials_mirror_stored_record [] "AD" "KX" c10WItem c10WRec false
      [("KX", c10WItem)] ⟨[]⟩ rfl rfl rfl rfl rfl⟩
